import Mathlib

/-!
Shallow embedding of the lesson-access screens of the repository:
the catalog assembler, the access-snapshot loaders, the request
workflow and the notification view model, together with theorems
settling the specification claims about them.

Sources embedded:
  - src/src/components/user/LessonsPage.tsx
  - src/src/components/user/pages/NotificationsPage.tsx
-/

namespace LessonApp

/-- Request status values stored in the lesson request map.  The backend
stores the strings pending, approved, rejected; the lesson view model adds
the value none for an absent entry (LessonsPage.tsx line 40). -/
inductive ReqStatus where
  | none
  | pending
  | approved
  | rejected
deriving DecidableEq

/-- Raw subject row as returned by the subjects query
(LessonsPage.tsx lines 308-311, consumed at lines 374-383). -/
structure RawSubject where
  id : String
  name : String
  description : String
  icon : String
  color : String
  image_url : Option String
deriving DecidableEq

/-- Raw lesson row as returned by the subject_lessons query
(LessonsPage.tsx lines 322-325, consumed at lines 361-371). -/
structure RawLesson where
  id : String
  title : String
  description : String
  subject_id : String
  thumbnail_url : Option String
deriving DecidableEq

/-- Raw video row as returned by the lesson_videos query
(LessonsPage.tsx lines 332-335, consumed at lines 346-359).
position is nullable in the database. -/
structure RawVideo where
  id : String
  title : String
  description : String
  youtube_url : String
  thumbnail_url : String
  duration : String
  lesson_id : String
  created_at : String
  position : Option Int
deriving DecidableEq

/-- Assembled video object built at LessonsPage.tsx lines 348-359. -/
structure LessonVideo where
  id : String
  title : String
  description : String
  youtube_url : String
  thumbnail_url : String
  duration : String
  lessonId : String
  subjectId : String
  created_at : String
  position : Int
deriving DecidableEq

/-- Assembled lesson object built at LessonsPage.tsx lines 361-371. -/
structure Lesson where
  id : String
  title : String
  description : String
  subjectId : String
  thumbnailUrl : Option String
  videoCount : Nat
  videos : List LessonVideo
  hasAccess : Bool
  requestStatus : ReqStatus
deriving DecidableEq

/-- Assembled subject object built at LessonsPage.tsx lines 374-383. -/
structure Subject where
  id : String
  name : String
  description : String
  icon : String
  color : String
  imageUrl : Option String
  lessonCount : Nat
  lessons : List Lesson
deriving DecidableEq

/-- Outcome of one backend call seen by the client: a successful
response carrying data, a response carrying a non-null error object,
or a thrown exception caught by a catch block. -/
inductive FetchResult (α : Type) where
  | ok : α → FetchResult α
  | errorResult : FetchResult α
  | exception : FetchResult α
deriving DecidableEq

/-- The request map is the JS Map from lesson id to request status
(LessonsPage.tsx line 243).  Modelled as an association list whose
keys are unique, in insertion order, exactly as a JS Map iterates. -/
abbrev RequestMap := List (String × ReqStatus)

/-- JS Map.get: first (unique) matching key, else undefined. -/
def mapGet (m : RequestMap) (k : String) : Option ReqStatus :=
  match m with
  | [] => Option.none
  | (k0, v) :: rest => if k0 = k then Option.some v else mapGet rest k

/-- JS Map.set: overwrite the entry of an existing key in place,
otherwise append the new entry at the end. -/
def mapSet (m : RequestMap) (k : String) (v : ReqStatus) : RequestMap :=
  match m with
  | [] => [(k, v)]
  | (k0, v0) :: rest => if k0 = k then (k, v) :: rest else (k0, v0) :: mapSet rest k v

/-- The effective position assigned at LessonsPage.tsx line 358:
position: video.position || index.  In JS both null/undefined and the
number 0 are falsy, so an absent position AND a stored position of 0
are both replaced by the fetch index within the lesson. -/
def effectivePosition (idx : Nat) (p : Option Int) : Int :=
  match p with
  | Option.none => (idx : Int)
  | Option.some q => if q = 0 then (idx : Int) else q

/-- The video object literal of LessonsPage.tsx lines 348-359. -/
def toLessonVideo (subjectId : String) (lessonId : String) (idx : Nat)
    (v : RawVideo) : LessonVideo :=
  { id := v.id
    title := v.title
    description := v.description
    youtube_url := v.youtube_url
    thumbnail_url := v.thumbnail_url
    duration := v.duration
    lessonId := lessonId
    subjectId := subjectId
    created_at := v.created_at
    position := effectivePosition idx v.position }

/-- LessonsPage.tsx lines 346-359: filter the raw videos down to one
lesson and map them, with their index in the filtered list, to video
objects. -/
def buildLessonVideos (subjectId : String) (lessonId : String)
    (videosData : List RawVideo) : List LessonVideo :=
  ((videosData.filter (fun v => v.lesson_id = lessonId)).enum).map
    (fun p => toLessonVideo subjectId lessonId p.1 p.2)

/-- Stable insertion into a list sorted ascending by key: the new
element goes before every element of equal key that was inserted
after it.  Together with sortByKey this models the stable ascending
numeric sort of modern JS Array.prototype.sort. -/
def insertByKey {α : Type} (key : α → Int) (x : α) : List α → List α
  | [] => [x]
  | y :: ys => if key y < key x then y :: insertByKey key x ys else x :: y :: ys

/-- Stable sort ascending by key, modelling
lessonVideos.sort((a, b) => (a.position || 0) - (b.position || 0))
at LessonsPage.tsx line 368.  After the map of line 358 every
position is a number, and for a number p the JS value p || 0 equals
p, so the comparator key is exactly the position field. -/
def sortByKey {α : Type} (key : α → Int) : List α → List α
  | [] => []
  | x :: xs => insertByKey key x (sortByKey key xs)

/-- The videos list stored on an assembled lesson:
lessonVideos.sort(...) at LessonsPage.tsx line 368. -/
def assembledVideos (subjectId : String) (lessonId : String)
    (videosData : List RawVideo) : List LessonVideo :=
  sortByKey (fun v => v.position) (buildLessonVideos subjectId lessonId videosData)

/-- The lesson object literal of LessonsPage.tsx lines 361-371.
requestStatus models userRequests.get(lesson.id) || (the string none);
the stored statuses are nonempty strings, hence truthy, so the
JS fallback fires exactly when get returns undefined. -/
def assembleLesson (subjectId : String) (userAccess : List String)
    (userRequests : RequestMap) (videosData : List RawVideo)
    (lesson : RawLesson) : Lesson :=
  let lessonVideos := buildLessonVideos subjectId lesson.id videosData
  { id := lesson.id
    title := lesson.title
    description := lesson.description
    subjectId := subjectId
    thumbnailUrl := lesson.thumbnail_url
    videoCount := lessonVideos.length
    videos := sortByKey (fun v => v.position) lessonVideos
    hasAccess := userAccess.contains lesson.id
    requestStatus :=
      match mapGet userRequests lesson.id with
      | Option.some s => s
      | Option.none => ReqStatus.none }

/-- The subject object literal of LessonsPage.tsx lines 342-384:
filter the raw lessons down to this subject and assemble each. -/
def toSubject (lessonsData : List RawLesson) (videosData : List RawVideo)
    (userAccess : List String) (userRequests : RequestMap)
    (subject : RawSubject) : Subject :=
  let subjectLessons :=
    (lessonsData.filter (fun l => l.subject_id = subject.id)).map
      (assembleLesson subject.id userAccess userRequests videosData)
  { id := subject.id
    name := subject.name
    description := subject.description
    icon := subject.icon
    color := subject.color
    imageUrl := subject.image_url
    lessonCount := subjectLessons.length
    lessons := subjectLessons }

/-- The organizedSubjects computation of LessonsPage.tsx lines 342-384. -/
def organizeSubjects (subjectsData : List RawSubject)
    (lessonsData : List RawLesson) (videosData : List RawVideo)
    (userAccess : List String) (userRequests : RequestMap) : List Subject :=
  subjectsData.map (toSubject lessonsData videosData userAccess userRequests)

/-- getDefaultSubjects, LessonsPage.tsx lines 468-499: the fixed
fallback catalog of three subjects with no lessons. -/
def getDefaultSubjects : List Subject :=
  [ { id := "sft"
      name := "SFT"
      description := "Science for Technology - Core scientific principles"
      icon := "🔬"
      color := "from-green-500 to-emerald-600"
      imageUrl := Option.some "https://images.pexels.com/photos/2280571/pexels-photo-2280571.jpeg"
      lessonCount := 0
      lessons := [] }
  , { id := "et"
      name := "ET"
      description := "Engineering Technology - Applied engineering concepts"
      icon := "⚙️"
      color := "from-orange-500 to-amber-600"
      imageUrl := Option.some "https://images.pexels.com/photos/159298/gears-cogs-machine-machinery-159298.jpeg"
      lessonCount := 0
      lessons := [] }
  , { id := "ict"
      name := "ICT"
      description := "Information & Communication Technology"
      icon := "💻"
      color := "from-blue-500 to-indigo-600"
      imageUrl := Option.some "https://images.pexels.com/photos/546819/pexels-photo-546819.jpeg"
      lessonCount := 0
      lessons := [] } ]

/-- loadSubjects, LessonsPage.tsx lines 300-394, as a pure function of
the outcomes of its three queries and of the current access snapshot.
A subject query error substitutes the default catalog (lines 313-319);
a thrown exception also substitutes it (lines 387-390); on success the
lesson and video lists fall back to empty when their own queries
errored (lessonsData || [] and videosData || []). -/
def loadSubjects (subjectsRes : FetchResult (List RawSubject))
    (lessonsRes : FetchResult (List RawLesson))
    (videosRes : FetchResult (List RawVideo))
    (userAccess : List String) (userRequests : RequestMap) : List Subject :=
  match subjectsRes with
  | FetchResult.errorResult => getDefaultSubjects
  | FetchResult.exception => getDefaultSubjects
  | FetchResult.ok subjectsData =>
    let lessonsData :=
      match lessonsRes with
      | FetchResult.ok l => l
      | _ => []
    let videosData :=
      match videosRes with
      | FetchResult.ok v => v
      | _ => []
    organizeSubjects subjectsData lessonsData videosData userAccess userRequests

/-- loadUserAccess, LessonsPage.tsx lines 250-273, as a state
transition on the userAccess half of the snapshot, given the fetch
outcome.  A successful query replaces the set wholesale with the
fetched lesson ids (line 266-267); a response carrying an error object
logs and returns early, leaving the state untouched (lines 261-264); a
thrown exception resets the state to the empty set (lines 269-272). -/
def loadUserAccess (res : FetchResult (List String))
    (prev : List String) : List String :=
  match res with
  | FetchResult.ok accessData => accessData
  | FetchResult.errorResult => prev
  | FetchResult.exception => []

/-- loadUserRequests, LessonsPage.tsx lines 275-298, as a state
transition on the userRequests half of the snapshot.  A successful
query replaces the map wholesale with a Map built from the fetched
(lesson_id, status) rows (line 291-292, later rows win as in the JS
Map constructor); an error response returns early leaving the state
untouched (lines 286-289); a thrown exception resets the map to empty
(lines 294-297). -/
def loadUserRequests (res : FetchResult (List (String × ReqStatus)))
    (prev : RequestMap) : RequestMap :=
  match res with
  | FetchResult.ok requestsData =>
      requestsData.foldl (fun m r => mapSet m r.1 r.2) []
  | FetchResult.errorResult => prev
  | FetchResult.exception => []

/-- submitLessonRequest, LessonsPage.tsx lines 506-537, restricted to
its effect on the local userRequests map.  When the insert succeeds the
map entry for the requested lesson is optimistically set to pending
(line 529); when the insert reports an error (lines 520-524) or throws
(lines 533-536) the handler returns without touching the map. -/
def submitLessonRequest (insertRes : FetchResult Unit)
    (lessonId : String) (prev : RequestMap) : RequestMap :=
  match insertRes with
  | FetchResult.ok _ => mapSet prev lessonId ReqStatus.pending
  | FetchResult.errorResult => prev
  | FetchResult.exception => prev

/-- The two data loaders a refresh trigger may invoke. -/
inductive FetchCall where
  | accessFetch
  | requestsFetch
deriving DecidableEq

/-- The body of the initial-mount effect, LessonsPage.tsx lines
397-402: when a user id is available it invokes loadUserRequests()
twice and never invokes loadUserAccess(). -/
def initialMountCalls (userIdPresent : Bool) : List FetchCall :=
  if userIdPresent then [FetchCall.requestsFetch, FetchCall.requestsFetch] else []

/-- handleLessonClick, LessonsPage.tsx lines 818-822: the request
capture form opens exactly when the guard
(not lesson.hasAccess) and (lesson.requestStatus different from pending)
holds. -/
def handleLessonClickOpens (lesson : Lesson) : Bool :=
  !lesson.hasAccess && lesson.requestStatus != ReqStatus.pending

/-- The container click guard of LessonsView, LessonsPage.tsx lines
832-842: the same condition gates the cursor style, the onClick
dispatch and the hover/tap scaling. -/
def lessonContainerClickable (lesson : Lesson) : Bool :=
  !lesson.hasAccess && lesson.requestStatus != ReqStatus.pending

/-- Optional structured data attached to a notification; its icon
sub-field can override the default display mapping. -/
structure NotifData where
  icon : Option String
deriving DecidableEq

/-- Notification record as consumed by NotificationsPage.tsx. -/
structure Notification where
  id : String
  userId : String
  type : String
  priority : String
  readStatus : Bool
  title : String
  message : String
  createdAt : String
  data : Option NotifData
deriving DecidableEq

/-- userNotifications, NotificationsPage.tsx lines 27-30: the
notifications of the current user. -/
def userNotifications (uid : String) (notifications : List Notification) :
    List Notification :=
  notifications.filter (fun n => n.userId = uid)

/-- unreadNotifications, NotificationsPage.tsx lines 33-36: the unread
notifications of the current user. -/
def unreadNotifications (uid : String) (notifications : List Notification) :
    List Notification :=
  (userNotifications uid notifications).filter (fun n => !n.readStatus)

/-- The unread badge count displayed by NotificationsPage.tsx. -/
def unreadCount (uid : String) (notifications : List Notification) : Nat :=
  (unreadNotifications uid notifications).length

/-- Modelled from the spec: markNotificationRead lives in the useData
hook, which is not among the files under review; section 4.5 of the
spec describes it as an idempotent read-marking mutation delegated to
the external notification channel.  It sets the read flag of the
notification with the given id. -/
def markNotificationRead (id : String) (notifications : List Notification) :
    List Notification :=
  notifications.map (fun n => if n.id = id then { n with readStatus := true } else n)

/-- handleNotificationClick, NotificationsPage.tsx lines 47-51: the
mutation is invoked only when the clicked notification is unread. -/
def handleNotificationClick (notification : Notification)
    (notifications : List Notification) : List Notification :=
  if !notification.readStatus then
    markNotificationRead notification.id notifications
  else
    notifications

/-- getNotificationIcon, NotificationsPage.tsx lines 70-83.  Icon
identifiers are represented by their source names as strings. -/
def getNotificationIcon (type : String) : String :=
  if type = "quiz_result" then "faCheck"
  else if type = "achievement" then "faStar"
  else if type = "reminder" then "faExclamationCircle"
  else if type = "broadcast" then "faInfoCircle"
  else "faBell"

/-- getNotificationIconForData, NotificationsPage.tsx lines 85-91: a
broadcast whose data.icon equals check-circle gets the check-circle
icon, otherwise the type mapping applies. -/
def getNotificationIconForData (n : Notification) : String :=
  if n.type = "broadcast" ∧ (n.data.bind NotifData.icon) = Option.some "check-circle" then
    "faCheckCircle"
  else
    getNotificationIcon n.type

/-- getNotificationColor, NotificationsPage.tsx lines 92-108: priority
high and medium take precedence, then the type decides. -/
def getNotificationColor (type : String) (priority : String) : String :=
  if priority = "high" then "text-red-600 bg-red-100"
  else if priority = "medium" then "text-yellow-600 bg-yellow-100"
  else if type = "quiz_result" then "text-green-600 bg-green-100"
  else if type = "achievement" then "text-purple-600 bg-purple-100"
  else if type = "reminder" then "text-orange-600 bg-orange-100"
  else if type = "broadcast" then "text-blue-600 bg-blue-100"
  else "text-gray-600 bg-gray-100"

/-- getNotificationColorForData, NotificationsPage.tsx lines 110-116:
a broadcast whose data.icon equals check-circle is green regardless of
priority, otherwise the priority/type mapping applies. -/
def getNotificationColorForData (n : Notification) : String :=
  if n.type = "broadcast" ∧ (n.data.bind NotifData.icon) = Option.some "check-circle" then
    "text-green-600 bg-green-100"
  else
    getNotificationColor n.type n.priority

section SortLemmas

variable {α : Type} (key : α → Int)

/-- Membership in a stable insertion is membership in the cons. -/
theorem mem_insertByKey {x a : α} {l : List α} :
    a ∈ insertByKey key x l ↔ a = x ∨ a ∈ l := by
  induction l with
  | nil => simp [insertByKey]
  | cons y ys ih =>
    by_cases h : key y < key x
    · simp only [insertByKey, if_pos h, List.mem_cons, ih]
      tauto
    · simp only [insertByKey, if_neg h, List.mem_cons]

/-- Stable insertion preserves sortedness by key. -/
theorem pairwise_insertByKey {x : α} {l : List α}
    (h : l.Pairwise (fun a b => key a ≤ key b)) :
    (insertByKey key x l).Pairwise (fun a b => key a ≤ key b) := by
  induction l with
  | nil => simp [insertByKey]
  | cons y ys ih =>
    rcases List.pairwise_cons.mp h with ⟨hy, hys⟩
    by_cases hk : key y < key x
    · simp only [insertByKey, if_pos hk]
      refine List.pairwise_cons.mpr ⟨?_, ih hys⟩
      intro b hb
      rcases (mem_insertByKey key).mp hb with rfl | hbl
      · exact le_of_lt hk
      · exact hy b hbl
    · simp only [insertByKey, if_neg hk]
      refine List.pairwise_cons.mpr ⟨?_, h⟩
      intro b hb
      rcases List.mem_cons.mp hb with rfl | hb
      · exact not_lt.mp hk
      · exact le_trans (not_lt.mp hk) (hy b hb)

/-- Stable insertion permutes the cons. -/
theorem perm_insertByKey (x : α) (l : List α) :
    (insertByKey key x l).Perm (x :: l) := by
  induction l with
  | nil => simp [insertByKey]
  | cons y ys ih =>
    by_cases hk : key y < key x
    · simp only [insertByKey, if_pos hk]
      exact (ih.cons y).trans (List.Perm.swap x y ys)
    · simp only [insertByKey, if_neg hk]
      exact List.Perm.refl _

/-- The stable sort is sorted ascending by key. -/
theorem pairwise_sortByKey (l : List α) :
    (sortByKey key l).Pairwise (fun a b => key a ≤ key b) := by
  induction l with
  | nil => simp [sortByKey]
  | cons x xs ih => exact pairwise_insertByKey key ih

/-- The stable sort permutes its input. -/
theorem perm_sortByKey (l : List α) : (sortByKey key l).Perm l := by
  induction l with
  | nil => simp [sortByKey]
  | cons x xs ih =>
    exact (perm_insertByKey key x (sortByKey key xs)).trans (ih.cons x)

end SortLemmas

/-- Map.set followed by Map.get on the same key yields the value set. -/
theorem mapGet_mapSet_self (m : RequestMap) (k : String) (v : ReqStatus) :
    mapGet (mapSet m k v) k = Option.some v := by
  induction m with
  | nil => simp [mapSet, mapGet]
  | cons p rest ih =>
    by_cases h : p.1 = k
    · simp [mapSet, h, mapGet]
    · simp [mapSet, h, mapGet, ih]

/-- Unfolding the id field of an assembled lesson. -/
theorem assembleLesson_id (subjectId : String) (userAccess : List String)
    (userRequests : RequestMap) (videosData : List RawVideo) (lesson : RawLesson) :
    (assembleLesson subjectId userAccess userRequests videosData lesson).id = lesson.id := rfl

/-- Unfolding the hasAccess field of an assembled lesson. -/
theorem assembleLesson_hasAccess (subjectId : String) (userAccess : List String)
    (userRequests : RequestMap) (videosData : List RawVideo) (lesson : RawLesson) :
    (assembleLesson subjectId userAccess userRequests videosData lesson).hasAccess
      = userAccess.contains lesson.id := rfl

/-- Unfolding the requestStatus field of an assembled lesson. -/
theorem assembleLesson_requestStatus (subjectId : String) (userAccess : List String)
    (userRequests : RequestMap) (videosData : List RawVideo) (lesson : RawLesson) :
    (assembleLesson subjectId userAccess userRequests videosData lesson).requestStatus
      = match mapGet userRequests lesson.id with
        | Option.some s => s
        | Option.none => ReqStatus.none := rfl

/-- Unfolding the lessons field of an assembled subject. -/
theorem toSubject_lessons (lessonsData : List RawLesson) (videosData : List RawVideo)
    (userAccess : List String) (userRequests : RequestMap) (subject : RawSubject) :
    (toSubject lessonsData videosData userAccess userRequests subject).lessons
      = (lessonsData.filter (fun l => l.subject_id = subject.id)).map
          (assembleLesson subject.id userAccess userRequests videosData) := rfl

/-! Concrete fixtures used by witnesses and counterexamples. -/

def rawSubject1 : RawSubject :=
  { id := "s1", name := "Subject One", description := "d", icon := "i",
    color := "c", image_url := Option.none }

def rawLesson1 : RawLesson :=
  { id := "L1", title := "Lesson One", description := "d", subject_id := "s1",
    thumbnail_url := Option.none }

def videoA : RawVideo :=
  { id := "v1", title := "First", description := "", youtube_url := "",
    thumbnail_url := "", duration := "", lesson_id := "L1", created_at := "",
    position := Option.some 2 }

def videoB : RawVideo :=
  { id := "v2", title := "Second", description := "", youtube_url := "",
    thumbnail_url := "", duration := "", lesson_id := "L1", created_at := "",
    position := Option.none }

def videoC : RawVideo :=
  { id := "v3", title := "Third", description := "", youtube_url := "",
    thumbnail_url := "", duration := "", lesson_id := "L1", created_at := "",
    position := Option.some 0 }

def approvedLockedLesson : Lesson :=
  { id := "L1", title := "Lesson One", description := "", subjectId := "s1",
    thumbnailUrl := Option.none, videoCount := 0, videos := [],
    hasAccess := false, requestStatus := ReqStatus.approved }

def pendingLockedLesson : Lesson :=
  { id := "L2", title := "Lesson Two", description := "", subjectId := "s1",
    thumbnailUrl := Option.none, videoCount := 0, videos := [],
    hasAccess := false, requestStatus := ReqStatus.pending }

def readNotification : Notification :=
  { id := "n1", userId := "u1", type := "broadcast", priority := "low",
    readStatus := true, title := "t", message := "m", createdAt := "2026-01-01",
    data := Option.none }

def broadcastApprovalNotification : Notification :=
  { id := "n2", userId := "u1", type := "broadcast", priority := "high",
    readStatus := false, title := "t", message := "m", createdAt := "2026-01-02",
    data := Option.some { icon := Option.some "check-circle" } }

/-- C1: every lesson produced by the catalog assembler whose identifier
is in the access set has hasAccess true, whatever the request map
holds for that identifier (the request map is universally quantified). -/
theorem access_set_overrides_request_map
    (subjectsData : List RawSubject) (lessonsData : List RawLesson)
    (videosData : List RawVideo) (userAccess : List String)
    (userRequests : RequestMap) (S : Subject) (L : Lesson)
    (hS : S ∈ organizeSubjects subjectsData lessonsData videosData userAccess userRequests)
    (hL : L ∈ S.lessons)
    (hAcc : userAccess.contains L.id = true) :
    L.hasAccess = true := by
  simp only [organizeSubjects, List.mem_map] at hS
  rcases hS with ⟨rawS, hrawS, rfl⟩
  rw [toSubject_lessons] at hL
  rcases List.mem_map.mp hL with ⟨rawL, hrawL, rfl⟩
  rw [assembleLesson_hasAccess]
  rw [assembleLesson_id] at hAcc
  exact hAcc

theorem access_set_overrides_request_map_witness :
    (assembleLesson "s1" ["L1"] [("L1", ReqStatus.rejected)] [] rawLesson1).hasAccess = true :=
  access_set_overrides_request_map [rawSubject1] [rawLesson1] [] ["L1"]
    [("L1", ReqStatus.rejected)]
    (toSubject [rawLesson1] [] ["L1"] [("L1", ReqStatus.rejected)] rawSubject1)
    (assembleLesson "s1" ["L1"] [("L1", ReqStatus.rejected)] [] rawLesson1)
    (by decide) (by decide) (by decide)

/-- C2: every lesson produced by the catalog assembler whose identifier
is not in the access set carries exactly the request status stored in
the request map for its identifier, and the status none when the map
has no entry for it. -/
theorem request_status_matches_request_map
    (subjectsData : List RawSubject) (lessonsData : List RawLesson)
    (videosData : List RawVideo) (userAccess : List String)
    (userRequests : RequestMap) (S : Subject) (L : Lesson)
    (hS : S ∈ organizeSubjects subjectsData lessonsData videosData userAccess userRequests)
    (hL : L ∈ S.lessons)
    (hNoAcc : userAccess.contains L.id = false) :
    (∀ s, mapGet userRequests L.id = Option.some s → L.requestStatus = s)
    ∧ (mapGet userRequests L.id = Option.none → L.requestStatus = ReqStatus.none) := by
  simp only [organizeSubjects, List.mem_map] at hS
  rcases hS with ⟨rawS, hrawS, rfl⟩
  rw [toSubject_lessons] at hL
  rcases List.mem_map.mp hL with ⟨rawL, hrawL, rfl⟩
  rw [assembleLesson_id]
  constructor
  · intro s hs
    rw [assembleLesson_requestStatus, hs]
  · intro h0
    rw [assembleLesson_requestStatus, h0]

theorem request_status_matches_request_map_witness :
    (assembleLesson "s1" [] [("L1", ReqStatus.pending)] [] rawLesson1).requestStatus
      = ReqStatus.pending :=
  (request_status_matches_request_map [rawSubject1] [rawLesson1] [] []
      [("L1", ReqStatus.pending)]
      (toSubject [rawLesson1] [] [] [("L1", ReqStatus.pending)] rawSubject1)
      (assembleLesson "s1" [] [("L1", ReqStatus.pending)] [] rawLesson1)
      (by decide) (by decide) (by decide)).1 ReqStatus.pending (by decide)

/-- C3 counterexample: for three videos of one lesson fetched in order
with positions 2, absent, 0, the assembled order is second, first,
third — not third, first, second as claimed.  The stored position 0 is
JS-falsy, so it is replaced by the fetch index 2, tying with the first
video and losing to it by stability. -/
theorem video_order_counterexample :
    (assembledVideos "s1" "L1" [videoA, videoB, videoC]).map LessonVideo.id
        = ["v2", "v1", "v3"]
    ∧ (assembledVideos "s1" "L1" [videoA, videoB, videoC]).map LessonVideo.id
        ≠ ["v3", "v1", "v2"] := by
  decide

/-- C3 amended: video ordering within an assembled lesson is a stable
sort ascending by effective position, where a video whose stored
position is absent or zero receives its fetch index as effective
position; on the cited input the output order is second, first, third. -/
theorem video_order_stable_by_effective_position :
    (∀ (sid lid : String) (vs : List RawVideo),
        (assembledVideos sid lid vs).Pairwise (fun a b => a.position ≤ b.position))
    ∧ (∀ (sid lid : String) (vs : List RawVideo),
        (assembledVideos sid lid vs).Perm (buildLessonVideos sid lid vs))
    ∧ (assembledVideos "s1" "L1" [videoA, videoB, videoC]).map LessonVideo.id
        = ["v2", "v1", "v3"] := by
  refine ⟨?_, ?_, by decide⟩
  · intro sid lid vs
    exact pairwise_sortByKey (fun v : LessonVideo => v.position) _
  · intro sid lid vs
    exact perm_sortByKey (fun v : LessonVideo => v.position) _

/-- C4 counterexample: a fetch that completes with a backend error
result leaves the previous snapshot half in place instead of resetting
it to empty, for both the access set and the request map. -/
theorem failed_fetch_keeps_previous_snapshot :
    loadUserAccess FetchResult.errorResult ["L1"] = ["L1"]
    ∧ loadUserAccess FetchResult.errorResult ["L1"] ≠ ([] : List String)
    ∧ loadUserRequests FetchResult.errorResult [("L1", ReqStatus.pending)]
        = [("L1", ReqStatus.pending)]
    ∧ loadUserRequests FetchResult.errorResult [("L1", ReqStatus.pending)]
        ≠ ([] : RequestMap) := by
  decide

/-- C4 amended: a fetch that throws resets its half of the snapshot to
empty and the caller proceeds; a fetch that completes with a backend
error result returns early and its half retains its previous value. -/
theorem snapshot_reset_on_exception_only :
    ∀ (prevAccess : List String) (prevRequests : RequestMap),
      loadUserAccess FetchResult.exception prevAccess = []
      ∧ loadUserRequests FetchResult.exception prevRequests = []
      ∧ loadUserAccess FetchResult.errorResult prevAccess = prevAccess
      ∧ loadUserRequests FetchResult.errorResult prevRequests = prevRequests := by
  intro p q
  exact ⟨rfl, rfl, rfl, rfl⟩

/-- C5: whenever the subject query fails, the assembler output is the
fixed fallback catalog of exactly three subjects, each with an empty
lesson list and lessonCount zero, whatever the other inputs are. -/
theorem fallback_catalog_on_subject_error :
    ∀ (lessonsRes : FetchResult (List RawLesson))
      (videosRes : FetchResult (List RawVideo))
      (userAccess : List String) (userRequests : RequestMap),
      loadSubjects FetchResult.errorResult lessonsRes videosRes userAccess userRequests
          = getDefaultSubjects
      ∧ getDefaultSubjects.length = 3
      ∧ getDefaultSubjects.all (fun s => s.lessons.isEmpty && s.lessonCount == 0) = true := by
  intro lr vr ua ur
  exact ⟨rfl, rfl, rfl⟩

/-- C6: a successful insert optimistically sets the local request map
entry of the requested lesson to pending; a failed insert (error
result or thrown exception) leaves the local request map untouched. -/
theorem optimistic_update_only_on_success :
    ∀ (lessonId : String) (prev : RequestMap),
      mapGet (submitLessonRequest (FetchResult.ok ()) lessonId prev) lessonId
          = Option.some ReqStatus.pending
      ∧ submitLessonRequest FetchResult.errorResult lessonId prev = prev
      ∧ submitLessonRequest FetchResult.exception lessonId prev = prev := by
  intro lessonId prev
  exact ⟨mapGet_mapSet_self prev lessonId ReqStatus.pending, rfl, rfl⟩

/-- C7 counterexample: a lesson without access whose request status is
approved opens the request form when clicked, although it is neither
in state locked none nor locked rejected. -/
theorem lesson_click_counterexample :
    handleLessonClickOpens approvedLockedLesson = true
    ∧ approvedLockedLesson.hasAccess = false
    ∧ approvedLockedLesson.requestStatus ≠ ReqStatus.none
    ∧ approvedLockedLesson.requestStatus ≠ ReqStatus.rejected := by
  decide

/-- C7 amended: clicking a lesson opens the request capture form
exactly when the lesson has no access and its request status is not
pending — that is in locked none, locked rejected or locked approved;
lessons with access and locked pending lessons never open it, and the
container click guard of LessonsView agrees with handleLessonClick. -/
theorem lesson_click_opens_iff_locked_not_pending :
    ∀ l : Lesson,
      (handleLessonClickOpens l = true ↔
        l.hasAccess = false
        ∧ (l.requestStatus = ReqStatus.none ∨ l.requestStatus = ReqStatus.rejected
            ∨ l.requestStatus = ReqStatus.approved))
      ∧ (l.hasAccess = true → handleLessonClickOpens l = false)
      ∧ (l.requestStatus = ReqStatus.pending → handleLessonClickOpens l = false)
      ∧ lessonContainerClickable l = handleLessonClickOpens l := by
  intro l
  cases hl : l.hasAccess <;> cases hr : l.requestStatus <;>
    simp [handleLessonClickOpens, lessonContainerClickable, hl, hr]

theorem lesson_click_opens_iff_locked_not_pending_witness :
    handleLessonClickOpens pendingLockedLesson = false
    ∧ lessonContainerClickable approvedLockedLesson = handleLessonClickOpens approvedLockedLesson :=
  ⟨(lesson_click_opens_iff_locked_not_pending pendingLockedLesson).2.2.1 rfl,
   (lesson_click_opens_iff_locked_not_pending approvedLockedLesson).2.2.2⟩

/-- C8: on the initial-mount trigger with a user id present, the
effect body invokes the request-map loader twice and the access-set
loader not at all, instead of fetching each half exactly once. -/
theorem initial_mount_fetch_counts :
    initialMountCalls true = [FetchCall.requestsFetch, FetchCall.requestsFetch]
    ∧ (initialMountCalls true).count FetchCall.accessFetch = 0
    ∧ (initialMountCalls true).count FetchCall.requestsFetch = 2 := by
  decide

/-- C9: clicking an already-read notification performs no mutation:
the notification collection is unchanged, hence the unread count of
every user is unchanged. -/
theorem markRead_noop_on_read_notification
    (n : Notification) (notifications : List Notification)
    (h : n.readStatus = true) :
    handleNotificationClick n notifications = notifications
    ∧ ∀ uid, unreadCount uid (handleNotificationClick n notifications)
        = unreadCount uid notifications := by
  have h1 : handleNotificationClick n notifications = notifications := by
    simp [handleNotificationClick, h]
  exact ⟨h1, fun uid => by rw [h1]⟩

theorem markRead_noop_on_read_notification_witness :
    handleNotificationClick readNotification [readNotification] = [readNotification] :=
  (markRead_noop_on_read_notification readNotification [readNotification] rfl).1

/-- C10: a broadcast notification whose data icon field equals
check-circle is displayed with the green color token and the
check-circle icon whatever its priority is; outside the override, high
priority maps to red and medium priority to yellow for every type. -/
theorem broadcast_check_circle_display
    (n : Notification)
    (htype : n.type = "broadcast")
    (hicon : n.data.bind NotifData.icon = Option.some "check-circle") :
    getNotificationColorForData n = "text-green-600 bg-green-100"
    ∧ getNotificationIconForData n = "faCheckCircle"
    ∧ getNotificationColor n.type "high" = "text-red-600 bg-red-100"
    ∧ getNotificationColor n.type "medium" = "text-yellow-600 bg-yellow-100" := by
  refine ⟨?_, ?_, ?_, ?_⟩
  · simp [getNotificationColorForData, htype, hicon]
  · simp [getNotificationIconForData, htype, hicon]
  · simp [getNotificationColor]
  · simp [getNotificationColor]

theorem broadcast_check_circle_display_witness :
    getNotificationColorForData broadcastApprovalNotification = "text-green-600 bg-green-100" :=
  (broadcast_check_circle_display broadcastApprovalNotification rfl rfl).1

end LessonApp
